import Mathlib

/-!
Verification of the notification plugin core (`backend/notifications/plugin.py`):
a shallow embedding of the context data model, the base plugin contract and the
default text-rendering engine, together with theorems settling the stated
properties of the specification.

Python strings become `String`, dicts become association lists, fallible
operations (`raise NotImplementedError`, `d[k]` lookups) become `Except`.
-/

namespace Obico

/-- Stand-in for Python `datetime.datetime` values; the core never inspects them. -/
abbrev DateTime := Int

/-- A value stored in one of the opaque mappings (`config`, `extra_context`):
either a string or a number, which is all the rendering engine ever consumes. -/
inductive PyVal where
  | str (s : String)
  | num (n : Int)
deriving DecidableEq

/-- Python `str()` rendering of a `PyVal`, as used when a value is interpolated
into an f-string or passed to `str`. -/
def PyVal.pyStr : PyVal → String
  | .str s => s
  | .num n => toString n

/-- A Python `Dict` modelled as an association list; lookup finds the first binding. -/
abbrev Dict := List (String × PyVal)

/-- The exceptions the plugin module can raise. -/
inductive PyErr where
  | keyError (k : String)
  | notImplementedError
deriving DecidableEq

/-- Python `d[k]`: the bound value, or a `KeyError` when the key is absent. -/
def dictGet (d : Dict) (k : String) : Except PyErr PyVal :=
  match d.lookup k with
  | some v => .ok v
  | none => .error (.keyError k)

/-- Modelled from the spec: the external Event-Type Registry module
(`notification_types`, outside the core source) supplies canonical string
identifiers, matched by equality, one per event kind; the registry names are
`PrintStarted`, `PrintDone`, `PrintCancelled`, `PrintPaused`, `PrintResumed`,
`FilamentChange`, `HeaterCooledDown`, `HeaterTargetReached`. -/
def notification_types.PrintStarted : String := "PrintStarted"

/-- Modelled from the spec: registry identifier for a completed print. -/
def notification_types.PrintDone : String := "PrintDone"

/-- Modelled from the spec: registry identifier for a cancelled print. -/
def notification_types.PrintCancelled : String := "PrintCancelled"

/-- Modelled from the spec: registry identifier for a paused print. -/
def notification_types.PrintPaused : String := "PrintPaused"

/-- Modelled from the spec: registry identifier for a resumed print. -/
def notification_types.PrintResumed : String := "PrintResumed"

/-- Modelled from the spec: registry identifier for a filament change. -/
def notification_types.FilamentChange : String := "FilamentChange"

/-- Modelled from the spec: registry identifier for a heater having cooled down. -/
def notification_types.HeaterCooledDown : String := "HeaterCooledDown"

/-- Modelled from the spec: registry identifier for a heater reaching target. -/
def notification_types.HeaterTargetReached : String := "HeaterTargetReached"

/-- `PrinterContext` from the source: frozen printer snapshot. -/
structure PrinterContext where
  id : Int
  name : String
  pause_on_failure : Bool
  watching_enabled : Bool
deriving DecidableEq

/-- `PrintContext` from the source: frozen print-job snapshot. -/
structure PrintContext where
  id : Int
  filename : String
  started_at : Option DateTime
  ended_at : Option DateTime
  alerted_at : Option DateTime
  alert_overwrite : String
deriving DecidableEq

/-- `Feature` from the source: the closed set of notification capabilities. -/
inductive Feature where
  | notify_on_failure_alert
  | notify_on_print_done
  | notify_on_print_cancelled
  | notify_on_filament_change
  | notify_on_heater_status
  | notify_on_print_start
  | notify_on_print_pause
  | notify_on_print_resume
deriving DecidableEq

/-- `UserContext` from the source: frozen user snapshot. -/
structure UserContext where
  id : Int
  email : String
  syndicate_name : String
  first_name : String
  last_name : String
  unsub_token : String
  dh_balance : Rat
  is_pro : Bool
deriving DecidableEq

/-- `NotificationContext` from the source: the shared notification payload. -/
structure NotificationContext where
  config : Dict
  user : UserContext
  printer : PrinterContext
  print : PrintContext
  extra_context : Dict
  img_url : String
deriving DecidableEq

/-- `FailureAlertContext` from the source: `NotificationContext` plus alert flags. -/
structure FailureAlertContext extends NotificationContext where
  is_warning : Bool
  print_paused : Bool
deriving DecidableEq

/-- `PrinterNotificationContext` from the source: `NotificationContext` plus the
feature and the event-type string. -/
structure PrinterNotificationContext extends NotificationContext where
  feature : Feature
  notification_type : String
deriving DecidableEq

/-- `TestMessageContext` from the source: minimal context for connectivity tests. -/
structure TestMessageContext where
  config : Dict
  user : UserContext
  extra_context : Dict
deriving DecidableEq

/-! The base plugin contract (`BaseNotificationPlugin`). The class is stateless,
so each method becomes a plain function. -/

/-- `BaseNotificationPlugin.validate_config`: identity passthrough. -/
def validate_config (data : Dict) : Dict :=
  data

/-- `BaseNotificationPlugin.send_failure_alert`: `raise NotImplementedError`. -/
def send_failure_alert (_context : FailureAlertContext) : Except PyErr Unit :=
  .error .notImplementedError

/-- `BaseNotificationPlugin.send_printer_notification`: `raise NotImplementedError`. -/
def send_printer_notification (_context : PrinterNotificationContext) : Except PyErr Unit :=
  .error .notImplementedError

/-- `BaseNotificationPlugin.send_test_message`: `raise NotImplementedError`. -/
def send_test_message (_context : TestMessageContext) : Except PyErr Unit :=
  .error .notImplementedError

/-- `BaseNotificationPlugin.supported_features`: the full set of `Feature` values. -/
def supported_features : List Feature :=
  [ Feature.notify_on_failure_alert,
    Feature.notify_on_print_done,
    Feature.notify_on_print_cancelled,
    Feature.notify_on_filament_change,
    Feature.notify_on_heater_status,
    Feature.notify_on_print_start,
    Feature.notify_on_print_pause,
    Feature.notify_on_print_resume ]

/-- `BaseNotificationPlugin.env_vars`: empty mapping. -/
def env_vars : Dict :=
  []

/-- `BaseNotificationPlugin.i`: italic formatting helper, identity by default. -/
def i (s : String) : String :=
  s

/-- `BaseNotificationPlugin.b`: bold formatting helper, identity by default. -/
def b (s : String) : String :=
  s

/-- `BaseNotificationPlugin.u`: underline formatting helper, identity by default. -/
def u (s : String) : String :=
  s

/-- `BaseNotificationPlugin.get_failure_alert_title`: a fixed literal. -/
def get_failure_alert_title (_context : FailureAlertContext) (_link : Option String) : String :=
  "Obico - Failure alert!"

/-- `BaseNotificationPlugin.get_failure_alert_text`, line by line: bold printer
name, warning or failure line, paused note, bold filename, optional link tail
(Python `if link:` is false for `None` and for the empty string). -/
def get_failure_alert_text (context : FailureAlertContext) (link : Option String) : String :=
  let text := b context.printer.name ++ " "
  let text := text ++
    (if context.is_warning then "Warning ⚠️\n" else "Failure Alert 🛑\n")
  let text := text ++
    (if context.print_paused then "Printer is paused."
     else if context.printer.pause_on_failure && context.is_warning then "Printer is NOT paused."
     else "")
  let text := text ++ "Print job " ++ b context.print.filename ++ " \n\n"
  match link with
  | some l => if l = "" then text else text ++ "\nGo check it at: " ++ l
  | none => text

/-- `BaseNotificationPlugin.get_printer_notification_title`: a fixed literal. -/
def get_printer_notification_title (_context : PrinterNotificationContext) : String :=
  "Obico - Print job notification"

/-- The shared tail of `get_printer_notification_text` reached by every known
event type: `text += "\n"; text += f"Print job {self.b(context.print.filename)}"`. -/
def withFilenameTail (text : String) (context : PrinterNotificationContext) : String :=
  text ++ "\n" ++ "Print job " ++ b context.print.filename

/-- `BaseNotificationPlugin.get_printer_notification_text`: dispatch on
`notification_type` against the registry; heater branches read the two
`extra_context` keys (a missing key raises `KeyError`); the unknown-type branch
returns the empty string without the filename tail. -/
def get_printer_notification_text (context : PrinterNotificationContext) :
    Except PyErr String :=
  let notification_type := context.notification_type
  let extra_context := context.extra_context
  let text := b context.printer.name ++ " "
  if notification_type = notification_types.PrintStarted then
    .ok (withFilenameTail (text ++ "Started ☀️") context)
  else if notification_type = notification_types.PrintDone then
    .ok (withFilenameTail (text ++ "Completed ✅") context)
  else if notification_type = notification_types.PrintCancelled then
    .ok (withFilenameTail (text ++ "Canceled ❌") context)
  else if notification_type = notification_types.PrintPaused then
    .ok (withFilenameTail (text ++ "Paused ⏸️") context)
  else if notification_type = notification_types.PrintResumed then
    .ok (withFilenameTail (text ++ "Resumed ▶️") context)
  else if notification_type = notification_types.FilamentChange then
    .ok (withFilenameTail (text ++ "requires filament change ♻️") context)
  else if notification_type = notification_types.HeaterCooledDown then
    match dictGet extra_context "heater_name" with
    | .error e => .error e
    | .ok hn =>
      match dictGet extra_context "heater_actual" with
      | .error e => .error e
      | .ok ha =>
        .ok (withFilenameTail
          (text ++ "\nHeater " ++ b hn.pyStr ++ " has cooled down to "
            ++ b (ha.pyStr ++ "℃") ++ " ") context)
  else if notification_type = notification_types.HeaterTargetReached then
    match dictGet extra_context "heater_name" with
    | .error e => .error e
    | .ok hn =>
      match dictGet extra_context "heater_actual" with
      | .error e => .error e
      | .ok ha =>
        .ok (withFilenameTail
          (text ++ "\nHeater " ++ b hn.pyStr ++ " has reached target temperature "
            ++ b (ha.pyStr ++ "℃") ++ " ") context)
  else
    .ok ""

/-- The known Event-Type Registry values, in dispatch order. -/
def knownTypes : List String :=
  [ notification_types.PrintStarted,
    notification_types.PrintDone,
    notification_types.PrintCancelled,
    notification_types.PrintPaused,
    notification_types.PrintResumed,
    notification_types.FilamentChange,
    notification_types.HeaterCooledDown,
    notification_types.HeaterTargetReached ]

/-- The six known registry values that are not heater events. -/
def nonHeaterTypes : List String :=
  [ notification_types.PrintStarted,
    notification_types.PrintDone,
    notification_types.PrintCancelled,
    notification_types.PrintPaused,
    notification_types.PrintResumed,
    notification_types.FilamentChange ]

/-- `strContains hay needle`: `needle` occurs contiguously inside `hay`. -/
def strContains (hay needle : String) : Prop :=
  needle.data <:+: hay.data

instance (hay needle : String) : Decidable (strContains hay needle) :=
  List.decidableInfix needle.data hay.data

instance {ε α : Type} [DecidableEq ε] [DecidableEq α] : DecidableEq (Except ε α) := fun x y =>
  match x, y with
  | .ok a, .ok c => if h : a = c then .isTrue (by rw [h]) else .isFalse (by simp [h])
  | .error a, .error c => if h : a = c then .isTrue (by rw [h]) else .isFalse (by simp [h])
  | .ok _, .error _ => .isFalse (by simp)
  | .error _, .ok _ => .isFalse (by simp)

/-! Sample contexts used to evaluate the embedding on concrete inputs. -/

/-- A concrete printer snapshot. -/
def samplePrinter : PrinterContext :=
  ⟨1, "Ender3", false, true⟩

/-- A concrete print-job snapshot. -/
def samplePrint : PrintContext :=
  ⟨2, "vase.gcode", none, none, none, ""⟩

/-- A concrete user snapshot. -/
def sampleUser : UserContext :=
  ⟨3, "jo@example.com", "base", "Jo", "Doe", "tok", 0, false⟩

/-- A concrete shared notification payload. -/
def sampleBase : NotificationContext :=
  ⟨[], sampleUser, samplePrinter, samplePrint, [], ""⟩

/-- A concrete failure-alert context: not a warning, printer paused. -/
def sampleFailureCtx : FailureAlertContext :=
  ⟨sampleBase, false, true⟩

/-- A concrete printer-notification context with the given event type. -/
def sampleNotifCtx (nt : String) : PrinterNotificationContext :=
  ⟨sampleBase, Feature.notify_on_print_done, nt⟩

/-- A concrete printer-notification context carrying heater data. -/
def sampleHeaterCtx (nt : String) : PrinterNotificationContext :=
  ⟨⟨[], sampleUser, samplePrinter, samplePrint,
    [("heater_name", .str "bed"), ("heater_actual", .num 60)], ""⟩,
   Feature.notify_on_heater_status, nt⟩

/-- The common shape of every known-non-heater rendering: printer name, a short
phrase, then the filename tail. -/
def renderShape (nm ph fn : String) : String :=
  nm ++ " " ++ ph ++ "\n" ++ "Print job " ++ fn

/-- Two contexts differing only in `alert_overwrite`. -/
def sampleFailureCtxOv : FailureAlertContext :=
  ⟨⟨[], sampleUser, samplePrinter, ⟨2, "vase.gcode", none, none, none, "OVERRIDDEN"⟩, [], ""⟩,
    false, true⟩

/-- Marker phrases of the failure-alert rendering. -/
def markersFresh (s : String) : Prop :=
  ¬ strContains s "Warning ⚠️" ∧ ¬ strContains s "Failure Alert 🛑" ∧
    ¬ strContains s "Printer is paused." ∧ ¬ strContains s "Printer is NOT paused."

instance (s : String) : Decidable (markersFresh s) := by
  unfold markersFresh
  infer_instance

/-- A failure-alert context whose printer name itself embeds the paused marker. -/
def overlapCtx : FailureAlertContext :=
  ⟨⟨[], sampleUser, ⟨1, "Printer is paused.", false, true⟩, samplePrint, [], ""⟩, false, false⟩

/-! General lemmas about contiguous occurrences in concatenations, used to
settle the containment properties of the rendering engine. -/

/-- Decomposition of a contiguous occurrence across an append: the occurrence
lies in the left part, lies in the right part, or straddles the boundary. -/
theorem infix_append_split {α : Type} {N a c : List α} (h : N <:+: a ++ c) :
    N <:+: a ∨ N <:+: c ∨
      ∃ x y, N = x ++ y ∧ x ≠ [] ∧ y ≠ [] ∧ x <:+ a ∧ y <+: c := by
  induction a with
  | nil =>
    rw [List.nil_append] at h
    exact Or.inr (Or.inl h)
  | cons hd tl ih =>
    rw [List.cons_append] at h
    rcases List.infix_cons_iff.mp h with hpre | htail
    · rcases List.prefix_cons_iff.mp hpre with rfl | ⟨t, rfl, ht⟩
      · exact Or.inl List.nil_infix
      · rcases List.prefix_or_prefix_of_prefix ht (List.prefix_append tl c) with h1 | h2
        · exact Or.inl (List.cons_prefix_cons.mpr ⟨rfl, h1⟩).isInfix
        · obtain ⟨y, rfl⟩ := h2
          have hyc : y <+: c := (List.prefix_append_right_inj tl).mp ht
          by_cases hy : y = []
          · subst hy
            exact Or.inl (by simp)
          · exact Or.inr (Or.inr
              ⟨hd :: tl, y, by simp, by simp, hy, List.suffix_refl _, hyc⟩)
    · rcases ih htail with h1 | h2 | ⟨x, y, hxy, hx, hy, hxa, hyc⟩
      · exact Or.inl (List.infix_cons h1)
      · exact Or.inr (Or.inl h2)
      · exact Or.inr (Or.inr ⟨x, y, hxy, hx, hy, hxa.trans (List.suffix_cons hd tl), hyc⟩)

/-- A list that is neither a would-be prefix nor a would-be extension of `A`
cannot be a prefix of `A ++ z` for any `z`. -/
theorem not_prefix_append_of_incomp {α : Type} {y A z : List α}
    (h1 : ¬ y <+: A) (h2 : ¬ A <+: y) : ¬ y <+: A ++ z :=
  fun h => (List.prefix_or_prefix_of_prefix h (List.prefix_append A z)).elim h1 h2

/-- `N` does not occur in `a ++ (A ++ (f ++ B))` when it occurs in none of the
four pieces and, in addition, no nonempty split of `N` can straddle one of the
three boundaries; the straddle conditions `c1`–`c3` only constrain `N` against
the concrete pieces `A` and `B`, so they are decidable. -/
theorem not_infix_concat4 {α : Type} {N a A f B : List α}
    (ha : ¬ N <:+: a) (hf : ¬ N <:+: f) (hA : ¬ N <:+: A) (hB : ¬ N <:+: B)
    (c1 : ∀ k ∈ List.range N.length, k ≠ 0 → ¬ N.drop k <+: A ∧ ¬ A <+: N.drop k)
    (c2 : ∀ k ∈ List.range N.length, k ≠ 0 → ¬ N.take k <:+ A)
    (c3 : ∀ k ∈ List.range N.length, k ≠ 0 → ¬ N.drop k <+: B) :
    ¬ N <:+: a ++ (A ++ (f ++ B)) := by
  intro h
  rcases infix_append_split h with h1 | h2 | ⟨x, y, hN, hx, hy, _, hyrest⟩
  · exact ha h1
  · rcases infix_append_split h2 with h3 | h4 | ⟨x, y, hN, hx, hy, hxA, _⟩
    · exact hA h3
    · rcases infix_append_split h4 with h5 | h6 | ⟨x, y, hN, hx, hy, _, hyB⟩
      · exact hf h5
      · exact hB h6
      · have hk : x.length ∈ List.range N.length := by
          rw [List.mem_range, hN, List.length_append]
          have := List.length_pos.mpr hy
          omega
        have hk0 : x.length ≠ 0 := fun h0 => hx (List.length_eq_zero.mp h0)
        have hdrop : N.drop x.length = y := by rw [hN, List.drop_left]
        rw [← hdrop] at hyB
        exact (c3 x.length hk hk0) hyB
    · have hk : x.length ∈ List.range N.length := by
        rw [List.mem_range, hN, List.length_append]
        have := List.length_pos.mpr hy
        omega
      have hk0 : x.length ≠ 0 := fun h0 => hx (List.length_eq_zero.mp h0)
      have htake : N.take x.length = x := by rw [hN, List.take_left]
      rw [← htake] at hxA
      exact (c2 x.length hk hk0) hxA
  · have hk : x.length ∈ List.range N.length := by
      rw [List.mem_range, hN, List.length_append]
      have := List.length_pos.mpr hy
      omega
    have hk0 : x.length ≠ 0 := fun h0 => hx (List.length_eq_zero.mp h0)
    have hdrop : N.drop x.length = y := by rw [hN, List.drop_left]
    obtain ⟨g1, g2⟩ := c1 x.length hk hk0
    rw [hdrop] at g1 g2
    exact not_prefix_append_of_incomp g1 g2 hyrest

/-- Occurring in the chunk `A` gives an occurrence in `a ++ (A ++ (f ++ B))`. -/
theorem contains_chunk {α : Type} {M A : List α} (a f B : List α) (h : M <:+: A) :
    M <:+: a ++ (A ++ (f ++ B)) :=
  h.trans (List.infix_append' a A (f ++ B))

/-- An occurrence inside `r` survives prepending `l`. -/
theorem infix_extend_left {α : Type} {x r : List α} (l : List α) (h : x <:+: r) :
    x <:+: l ++ r :=
  h.trans (List.suffix_append l r).isInfix


theorem data_empty : ("" : String).data = [] := rfl

/-- Claim C6: on an unmodified `BaseNotificationPlugin`, `supported_features()`
returns a set equal to the full closed set of all eight `Feature` values: every
`Feature` is a member, and the returned collection is duplicate-free of size 8. -/
theorem supported_features_complete :
    (∀ f : Feature, f ∈ supported_features) ∧
      supported_features.Nodup ∧ supported_features.length = 8 := by
  refine ⟨fun f => ?_, by decide, by decide⟩
  cases f <;> simp [supported_features]

/-- Claim C7: on an unmodified `BaseNotificationPlugin`, `validate_config` is
the identity on every mapping, and the formatting helpers `i`, `b` and `u` are
each the identity on every string. -/
theorem validate_config_and_format_identity :
    (∀ d : Dict, validate_config d = d) ∧
      (∀ s : String, i s = s ∧ b s = s ∧ u s = s) :=
  ⟨fun _ => rfl, fun _ => ⟨rfl, rfl, rfl⟩⟩

/-- Claim C8: on an unmodified `BaseNotificationPlugin`, each of
`send_failure_alert`, `send_printer_notification` and `send_test_message` fails
with the "not implemented" signal on every context and never returns normally. -/
theorem send_defaults_not_implemented :
    (∀ c : FailureAlertContext, send_failure_alert c = .error .notImplementedError) ∧
      (∀ c : PrinterNotificationContext,
        send_printer_notification c = .error .notImplementedError) ∧
      (∀ c : TestMessageContext, send_test_message c = .error .notImplementedError) :=
  ⟨fun _ => rfl, fun _ => rfl, fun _ => rfl⟩

/-- Claim C1: whenever `notification_type` matches none of the known
Event-Type Registry values, `get_printer_notification_text` returns exactly the
empty string. -/
theorem unknown_type_renders_empty (ctx : PrinterNotificationContext)
    (h : ctx.notification_type ∉ knownTypes) :
    get_printer_notification_text ctx = .ok "" := by
  simp only [knownTypes, List.mem_cons, List.not_mem_nil, or_false, not_or] at h
  obtain ⟨h1, h2, h3, h4, h5, h6, h7, h8⟩ := h
  simp [get_printer_notification_text, h1, h2, h3, h4, h5, h6, h7, h8]

theorem unknown_type_renders_empty_witness :
    (sampleNotifCtx "SomethingElse").notification_type ∉ knownTypes ∧
      get_printer_notification_text (sampleNotifCtx "SomethingElse") = .ok "" :=
  ⟨by decide, unknown_type_renders_empty (sampleNotifCtx "SomethingElse") (by decide)⟩

/-- Claim C5: for a heater event whose `extra_context` lacks `heater_name` or
`heater_actual`, `get_printer_notification_text` fails with a `KeyError`-class
lookup fault instead of returning a string; nothing catches or defaults it. -/
theorem heater_missing_key_faults (ctx : PrinterNotificationContext)
    (hnt : ctx.notification_type = notification_types.HeaterCooledDown ∨
      ctx.notification_type = notification_types.HeaterTargetReached)
    (h : ctx.extra_context.lookup "heater_name" = none ∨
      ctx.extra_context.lookup "heater_actual" = none) :
    ∃ k, get_printer_notification_text ctx = .error (PyErr.keyError k) := by
  rcases h with h | h
  · refine ⟨"heater_name", ?_⟩
    rcases hnt with hnt | hnt <;>
      simp [get_printer_notification_text, hnt, dictGet, h,
        notification_types.PrintStarted, notification_types.PrintDone,
        notification_types.PrintCancelled, notification_types.PrintPaused,
        notification_types.PrintResumed, notification_types.FilamentChange,
        notification_types.HeaterCooledDown, notification_types.HeaterTargetReached]
  · cases hlk : ctx.extra_context.lookup "heater_name" with
    | none =>
      refine ⟨"heater_name", ?_⟩
      rcases hnt with hnt | hnt <;>
        simp [get_printer_notification_text, hnt, dictGet, hlk,
          notification_types.PrintStarted, notification_types.PrintDone,
          notification_types.PrintCancelled, notification_types.PrintPaused,
          notification_types.PrintResumed, notification_types.FilamentChange,
          notification_types.HeaterCooledDown, notification_types.HeaterTargetReached]
    | some v =>
      refine ⟨"heater_actual", ?_⟩
      rcases hnt with hnt | hnt <;>
        simp [get_printer_notification_text, hnt, dictGet, hlk, h,
          notification_types.PrintStarted, notification_types.PrintDone,
          notification_types.PrintCancelled, notification_types.PrintPaused,
          notification_types.PrintResumed, notification_types.FilamentChange,
          notification_types.HeaterCooledDown, notification_types.HeaterTargetReached]

theorem heater_missing_key_faults_witness :
    ((sampleNotifCtx "HeaterCooledDown").notification_type =
        notification_types.HeaterCooledDown ∨
      (sampleNotifCtx "HeaterCooledDown").notification_type =
        notification_types.HeaterTargetReached) ∧
    ((sampleNotifCtx "HeaterCooledDown").extra_context.lookup "heater_name" = none ∨
      (sampleNotifCtx "HeaterCooledDown").extra_context.lookup "heater_actual" = none) ∧
    ∃ k, get_printer_notification_text (sampleNotifCtx "HeaterCooledDown") =
      .error (PyErr.keyError k) :=
  ⟨Or.inl rfl, Or.inl rfl,
    heater_missing_key_faults (sampleNotifCtx "HeaterCooledDown") (Or.inl rfl) (Or.inl rfl)⟩


theorem render_shape_props (nm ph fn : String) :
    renderShape nm ph fn ≠ "" ∧
      strContains (renderShape nm ph fn) nm ∧
      strContains (renderShape nm ph fn) fn ∧
      strContains (renderShape nm ph fn) ("\nPrint job " ++ fn) := by
  refine ⟨?_, ?_, ?_, ?_⟩
  · intro he
    have hsp : strContains (renderShape nm ph fn) " " := by
      simp only [renderShape, strContains, String.data_append, List.append_assoc]
      exact infix_extend_left _ (List.prefix_append _ _).isInfix
    rw [he] at hsp
    exact (by decide : ¬ strContains "" " ") hsp
  · simp only [renderShape, strContains, String.data_append, List.append_assoc]
    exact (List.prefix_append _ _).isInfix
  · simp only [renderShape, strContains, String.data_append, List.append_assoc]
    exact infix_extend_left _ (infix_extend_left _ (infix_extend_left _
      (infix_extend_left _ (infix_extend_left _ (List.infix_refl _)))))
  · simp only [renderShape, strContains, String.data_append, List.append_assoc]
    exact infix_extend_left _ (infix_extend_left _ (infix_extend_left _ (List.infix_refl _)))

theorem exists_render_of_eq (ph : String) {ctx : PrinterNotificationContext}
    (he : get_printer_notification_text ctx =
      .ok (renderShape ctx.printer.name ph ctx.print.filename)) :
    ∃ s, get_printer_notification_text ctx = .ok s ∧ s ≠ "" ∧
      strContains s ctx.printer.name ∧ strContains s ctx.print.filename ∧
      strContains s ("\nPrint job " ++ ctx.print.filename) :=
  ⟨_, he, (render_shape_props _ _ _).1, (render_shape_props _ _ _).2.1,
    (render_shape_props _ _ _).2.2.1, (render_shape_props _ _ _).2.2.2⟩

/-- On the six non-heater known types the rendering is `renderShape` with the
branch phrase. -/
theorem gpnt_eq_render_of_mem (ctx : PrinterNotificationContext)
    (h : ctx.notification_type ∈ nonHeaterTypes) :
    ∃ ph, get_printer_notification_text ctx =
      .ok (renderShape ctx.printer.name ph ctx.print.filename) := by
  simp only [nonHeaterTypes, List.mem_cons, List.not_mem_nil, or_false] at h
  rcases h with h | h | h | h | h | h
  · exact ⟨"Started ☀️", by
      simp [get_printer_notification_text, h, withFilenameTail, b, renderShape,
        notification_types.PrintStarted, notification_types.PrintDone,
        notification_types.PrintCancelled, notification_types.PrintPaused,
        notification_types.PrintResumed, notification_types.FilamentChange,
        notification_types.HeaterCooledDown, notification_types.HeaterTargetReached]⟩
  · exact ⟨"Completed ✅", by
      simp [get_printer_notification_text, h, withFilenameTail, b, renderShape,
        notification_types.PrintStarted, notification_types.PrintDone,
        notification_types.PrintCancelled, notification_types.PrintPaused,
        notification_types.PrintResumed, notification_types.FilamentChange,
        notification_types.HeaterCooledDown, notification_types.HeaterTargetReached]⟩
  · exact ⟨"Canceled ❌", by
      simp [get_printer_notification_text, h, withFilenameTail, b, renderShape,
        notification_types.PrintStarted, notification_types.PrintDone,
        notification_types.PrintCancelled, notification_types.PrintPaused,
        notification_types.PrintResumed, notification_types.FilamentChange,
        notification_types.HeaterCooledDown, notification_types.HeaterTargetReached]⟩
  · exact ⟨"Paused ⏸️", by
      simp [get_printer_notification_text, h, withFilenameTail, b, renderShape,
        notification_types.PrintStarted, notification_types.PrintDone,
        notification_types.PrintCancelled, notification_types.PrintPaused,
        notification_types.PrintResumed, notification_types.FilamentChange,
        notification_types.HeaterCooledDown, notification_types.HeaterTargetReached]⟩
  · exact ⟨"Resumed ▶️", by
      simp [get_printer_notification_text, h, withFilenameTail, b, renderShape,
        notification_types.PrintStarted, notification_types.PrintDone,
        notification_types.PrintCancelled, notification_types.PrintPaused,
        notification_types.PrintResumed, notification_types.FilamentChange,
        notification_types.HeaterCooledDown, notification_types.HeaterTargetReached]⟩
  · exact ⟨"requires filament change ♻️", by
      simp [get_printer_notification_text, h, withFilenameTail, b, renderShape,
        notification_types.PrintStarted, notification_types.PrintDone,
        notification_types.PrintCancelled, notification_types.PrintPaused,
        notification_types.PrintResumed, notification_types.FilamentChange,
        notification_types.HeaterCooledDown, notification_types.HeaterTargetReached]⟩

/-- Claim C3: for every known non-heater `notification_type`,
`get_printer_notification_text` returns a non-empty string containing the
printer's name and the print's filename, the filename being appended after a
newline. -/
theorem known_nonheater_text (ctx : PrinterNotificationContext)
    (h : ctx.notification_type ∈ nonHeaterTypes) :
    ∃ s, get_printer_notification_text ctx = .ok s ∧ s ≠ "" ∧
      strContains s ctx.printer.name ∧ strContains s ctx.print.filename ∧
      strContains s ("\nPrint job " ++ ctx.print.filename) := by
  obtain ⟨ph, he⟩ := gpnt_eq_render_of_mem ctx h
  exact exists_render_of_eq ph he

theorem known_nonheater_text_witness :
    (sampleNotifCtx "PrintDone").notification_type ∈ nonHeaterTypes ∧
      ∃ s, get_printer_notification_text (sampleNotifCtx "PrintDone") = .ok s ∧ s ≠ "" ∧
        strContains s (sampleNotifCtx "PrintDone").printer.name ∧
        strContains s (sampleNotifCtx "PrintDone").print.filename ∧
        strContains s ("\nPrint job " ++ (sampleNotifCtx "PrintDone").print.filename) :=
  ⟨by decide, known_nonheater_text (sampleNotifCtx "PrintDone") (by decide)⟩


/-- Claim C10: on the six known non-heater event types,
`get_printer_notification_text` returns normally and its result does not depend
on `extra_context` at all, so no lookup fault can occur even when the mapping
is empty or lacks the heater keys. -/
theorem nonheater_ignores_extra_context (ctx : PrinterNotificationContext)
    (h : ctx.notification_type ∈ nonHeaterTypes) :
    (∃ s, get_printer_notification_text ctx = .ok s) ∧
      ∀ d : Dict, get_printer_notification_text {ctx with extra_context := d} =
        get_printer_notification_text ctx := by
  constructor
  · obtain ⟨ph, he⟩ := gpnt_eq_render_of_mem ctx h
    exact ⟨_, he⟩
  · simp only [nonHeaterTypes, List.mem_cons, List.not_mem_nil, or_false] at h
    rcases h with h | h | h | h | h | h <;>
      intro d <;>
      simp [get_printer_notification_text, h, withFilenameTail, b,
        notification_types.PrintStarted, notification_types.PrintDone,
        notification_types.PrintCancelled, notification_types.PrintPaused,
        notification_types.PrintResumed, notification_types.FilamentChange,
        notification_types.HeaterCooledDown, notification_types.HeaterTargetReached]

theorem nonheater_ignores_extra_context_witness :
    (sampleNotifCtx "PrintStarted").notification_type ∈ nonHeaterTypes ∧
      (∃ s, get_printer_notification_text (sampleNotifCtx "PrintStarted") = .ok s) ∧
      ∀ d : Dict,
        get_printer_notification_text {sampleNotifCtx "PrintStarted" with extra_context := d} =
          get_printer_notification_text (sampleNotifCtx "PrintStarted") :=
  ⟨by decide, nonheater_ignores_extra_context (sampleNotifCtx "PrintStarted") (by decide)⟩

/-- Claim C9: `get_failure_alert_text` never consults `alert_overwrite`: two
contexts agreeing on every field the rendering reads (in particular any two
contexts agreeing on everything except `print.alert_overwrite`) render to equal
strings, for any link. -/
theorem failure_text_ignores_alert_overwrite (c₁ c₂ : FailureAlertContext)
    (link : Option String)
    (hpr : c₁.printer = c₂.printer) (hw : c₁.is_warning = c₂.is_warning)
    (hp : c₁.print_paused = c₂.print_paused)
    (hfn : c₁.print.filename = c₂.print.filename) :
    get_failure_alert_text c₁ link = get_failure_alert_text c₂ link := by
  simp only [get_failure_alert_text, b, hpr, hw, hp, hfn]

theorem failure_text_ignores_alert_overwrite_witness :
    sampleFailureCtx.print.alert_overwrite ≠ sampleFailureCtxOv.print.alert_overwrite ∧
      get_failure_alert_text sampleFailureCtx none =
        get_failure_alert_text sampleFailureCtxOv none :=
  ⟨by decide,
    failure_text_ignores_alert_overwrite sampleFailureCtx sampleFailureCtxOv none
      rfl rfl rfl rfl⟩

/-- Claim C4: for a heater event whose `extra_context` binds `heater_name` and
`heater_actual`, `get_printer_notification_text` returns a string containing
the heater name's rendering and the string rendering of the temperature value. -/
theorem heater_text_contains_name_and_temp (ctx : PrinterNotificationContext)
    (vn va : PyVal)
    (hnt : ctx.notification_type = notification_types.HeaterCooledDown ∨
      ctx.notification_type = notification_types.HeaterTargetReached)
    (hn : ctx.extra_context.lookup "heater_name" = some vn)
    (ha : ctx.extra_context.lookup "heater_actual" = some va) :
    ∃ s, get_printer_notification_text ctx = .ok s ∧
      strContains s vn.pyStr ∧ strContains s va.pyStr := by
  rcases hnt with hnt | hnt
  · have he : get_printer_notification_text ctx =
        .ok (ctx.printer.name ++ " " ++ "\nHeater " ++ vn.pyStr ++ " has cooled down to "
          ++ (va.pyStr ++ "℃") ++ " " ++ "\n" ++ "Print job " ++ ctx.print.filename) := by
      simp [get_printer_notification_text, hnt, dictGet, hn, ha, withFilenameTail, b,
        notification_types.PrintStarted, notification_types.PrintDone,
        notification_types.PrintCancelled, notification_types.PrintPaused,
        notification_types.PrintResumed, notification_types.FilamentChange,
        notification_types.HeaterCooledDown, notification_types.HeaterTargetReached]
    refine ⟨_, he, ?_, ?_⟩
    · simp only [strContains, String.data_append, List.append_assoc]
      exact infix_extend_left _ (infix_extend_left _ (infix_extend_left _
        (List.prefix_append _ _).isInfix))
    · simp only [strContains, String.data_append, List.append_assoc]
      exact infix_extend_left _ (infix_extend_left _ (infix_extend_left _
        (infix_extend_left _ (infix_extend_left _ (List.prefix_append _ _).isInfix))))
  · have he : get_printer_notification_text ctx =
        .ok (ctx.printer.name ++ " " ++ "\nHeater " ++ vn.pyStr
          ++ " has reached target temperature "
          ++ (va.pyStr ++ "℃") ++ " " ++ "\n" ++ "Print job " ++ ctx.print.filename) := by
      simp [get_printer_notification_text, hnt, dictGet, hn, ha, withFilenameTail, b,
        notification_types.PrintStarted, notification_types.PrintDone,
        notification_types.PrintCancelled, notification_types.PrintPaused,
        notification_types.PrintResumed, notification_types.FilamentChange,
        notification_types.HeaterCooledDown, notification_types.HeaterTargetReached]
    refine ⟨_, he, ?_, ?_⟩
    · simp only [strContains, String.data_append, List.append_assoc]
      exact infix_extend_left _ (infix_extend_left _ (infix_extend_left _
        (List.prefix_append _ _).isInfix))
    · simp only [strContains, String.data_append, List.append_assoc]
      exact infix_extend_left _ (infix_extend_left _ (infix_extend_left _
        (infix_extend_left _ (infix_extend_left _ (List.prefix_append _ _).isInfix))))


theorem heater_text_contains_name_and_temp_witness :
    ((sampleHeaterCtx "HeaterTargetReached").notification_type =
        notification_types.HeaterCooledDown ∨
      (sampleHeaterCtx "HeaterTargetReached").notification_type =
        notification_types.HeaterTargetReached) ∧
    (sampleHeaterCtx "HeaterTargetReached").extra_context.lookup "heater_name" =
      some (.str "bed") ∧
    (sampleHeaterCtx "HeaterTargetReached").extra_context.lookup "heater_actual" =
      some (.num 60) ∧
    ∃ s, get_printer_notification_text (sampleHeaterCtx "HeaterTargetReached") = .ok s ∧
      strContains s (PyVal.str "bed").pyStr ∧ strContains s (PyVal.num 60).pyStr :=
  ⟨Or.inr rfl, by decide, by decide,
    heater_text_contains_name_and_temp (sampleHeaterCtx "HeaterTargetReached")
      (.str "bed") (.num 60) (Or.inr rfl) (by decide) (by decide)⟩


/-- Claim C2 as stated is false at `overlapCtx`: the rendered text contains
"Printer is paused." although `print_paused` is false, because the printer name
carries the marker. -/
theorem failure_alert_marker_counterexample :
    overlapCtx.print_paused = false ∧
      strContains (get_failure_alert_text overlapCtx none) "Printer is paused." :=
  ⟨rfl, by decide⟩

/-- Claim C2 (amended): for contexts whose printer name and filename do not
themselves contain one of the four marker phrases, the rendered failure text
contains the warning marker exactly when `is_warning`, the failure marker
exactly otherwise, "Printer is paused." exactly when `print_paused`, and
"Printer is NOT paused." exactly when not paused while `pause_on_failure` and
`is_warning` both hold; the concrete Ender3 example holds as stated. -/
theorem failure_alert_text_markers :
    (∀ ctx : FailureAlertContext,
      markersFresh ctx.printer.name → markersFresh ctx.print.filename →
        ((strContains (get_failure_alert_text ctx none) "Warning ⚠️" ↔
            ctx.is_warning = true) ∧
         (strContains (get_failure_alert_text ctx none) "Failure Alert 🛑" ↔
            ctx.is_warning = false) ∧
         (strContains (get_failure_alert_text ctx none) "Printer is paused." ↔
            ctx.print_paused = true) ∧
         (strContains (get_failure_alert_text ctx none) "Printer is NOT paused." ↔
            ctx.print_paused = false ∧ ctx.printer.pause_on_failure = true ∧
              ctx.is_warning = true))) ∧
    (strContains (get_failure_alert_text sampleFailureCtx none) "Ender3" ∧
     strContains (get_failure_alert_text sampleFailureCtx none) "Failure Alert" ∧
     strContains (get_failure_alert_text sampleFailureCtx none) "Printer is paused." ∧
     strContains (get_failure_alert_text sampleFailureCtx none) "vase.gcode") := by
  constructor
  · intro ctx hnm hfn
    obtain ⟨hnm1, hnm2, hnm3, hnm4⟩ := hnm
    obtain ⟨hfn1, hfn2, hfn3, hfn4⟩ := hfn
    cases hw : ctx.is_warning with
    | true =>
      cases hp : ctx.print_paused with
      | true =>
        have hdata : (get_failure_alert_text ctx none).data =
            ctx.printer.name.data ++
              ((" Warning ⚠️\nPrinter is paused.Print job ").data ++
                (ctx.print.filename.data ++ (" \n\n").data)) := by
          simp [get_failure_alert_text, b, hw, hp, String.data_append, List.append_assoc]
        simp only [strContains]
        rw [hdata]
        refine ⟨?_, ?_, ?_, ?_⟩
        · exact iff_of_true (contains_chunk _ _ _ (by decide)) (by simp)
        · exact iff_of_false
            (not_infix_concat4 hnm2 hfn2 (by decide) (by decide)
              (by decide) (by decide) (by decide)) (by simp [hw])
        · exact iff_of_true (contains_chunk _ _ _ (by decide)) (by simp)
        · exact iff_of_false
            (not_infix_concat4 hnm4 hfn4 (by decide) (by decide)
              (by decide) (by decide) (by decide)) (by simp [hp])
      | false =>
        cases hpf : ctx.printer.pause_on_failure with
        | true =>
          have hdata : (get_failure_alert_text ctx none).data =
              ctx.printer.name.data ++
                ((" Warning ⚠️\nPrinter is NOT paused.Print job ").data ++
                  (ctx.print.filename.data ++ (" \n\n").data)) := by
            simp [get_failure_alert_text, b, hw, hp, hpf, String.data_append,
              List.append_assoc]
          simp only [strContains]
          rw [hdata]
          refine ⟨?_, ?_, ?_, ?_⟩
          · exact iff_of_true (contains_chunk _ _ _ (by decide)) (by simp)
          · exact iff_of_false
              (not_infix_concat4 hnm2 hfn2 (by decide) (by decide)
                (by decide) (by decide) (by decide)) (by simp [hw])
          · exact iff_of_false
              (not_infix_concat4 hnm3 hfn3 (by decide) (by decide)
                (by decide) (by decide) (by decide)) (by simp [hp])
          · exact iff_of_true (contains_chunk _ _ _ (by decide)) (by simp)
        | false =>
          have hdata : (get_failure_alert_text ctx none).data =
              ctx.printer.name.data ++
                ((" Warning ⚠️\nPrint job ").data ++
                  (ctx.print.filename.data ++ (" \n\n").data)) := by
            simp [get_failure_alert_text, b, hw, hp, hpf, String.data_append,
              List.append_assoc]
          simp only [strContains]
          rw [hdata]
          refine ⟨?_, ?_, ?_, ?_⟩
          · exact iff_of_true (contains_chunk _ _ _ (by decide)) (by simp)
          · exact iff_of_false
              (not_infix_concat4 hnm2 hfn2 (by decide) (by decide)
                (by decide) (by decide) (by decide)) (by simp [hw])
          · exact iff_of_false
              (not_infix_concat4 hnm3 hfn3 (by decide) (by decide)
                (by decide) (by decide) (by decide)) (by simp [hp])
          · exact iff_of_false
              (not_infix_concat4 hnm4 hfn4 (by decide) (by decide)
                (by decide) (by decide) (by decide)) (by simp [hpf])
    | false =>
      cases hp : ctx.print_paused with
      | true =>
        have hdata : (get_failure_alert_text ctx none).data =
            ctx.printer.name.data ++
              ((" Failure Alert 🛑\nPrinter is paused.Print job ").data ++
                (ctx.print.filename.data ++ (" \n\n").data)) := by
          simp [get_failure_alert_text, b, hw, hp, String.data_append, List.append_assoc]
        simp only [strContains]
        rw [hdata]
        refine ⟨?_, ?_, ?_, ?_⟩
        · exact iff_of_false
            (not_infix_concat4 hnm1 hfn1 (by decide) (by decide)
              (by decide) (by decide) (by decide)) (by simp [hw])
        · exact iff_of_true (contains_chunk _ _ _ (by decide)) (by simp)
        · exact iff_of_true (contains_chunk _ _ _ (by decide)) (by simp)
        · exact iff_of_false
            (not_infix_concat4 hnm4 hfn4 (by decide) (by decide)
              (by decide) (by decide) (by decide)) (by simp [hp])
      | false =>
        have hdata : (get_failure_alert_text ctx none).data =
            ctx.printer.name.data ++
              ((" Failure Alert 🛑\nPrint job ").data ++
                (ctx.print.filename.data ++ (" \n\n").data)) := by
          simp [get_failure_alert_text, b, hw, hp, String.data_append, List.append_assoc]
        simp only [strContains]
        rw [hdata]
        refine ⟨?_, ?_, ?_, ?_⟩
        · exact iff_of_false
            (not_infix_concat4 hnm1 hfn1 (by decide) (by decide)
              (by decide) (by decide) (by decide)) (by simp [hw])
        · exact iff_of_true (contains_chunk _ _ _ (by decide)) (by simp)
        · exact iff_of_false
            (not_infix_concat4 hnm3 hfn3 (by decide) (by decide)
              (by decide) (by decide) (by decide)) (by simp [hp])
        · exact iff_of_false
            (not_infix_concat4 hnm4 hfn4 (by decide) (by decide)
              (by decide) (by decide) (by decide)) (by simp [hw])
  · exact ⟨by decide, by decide, by decide, by decide⟩

theorem failure_alert_text_markers_witness :
    markersFresh sampleFailureCtx.printer.name ∧
      markersFresh sampleFailureCtx.print.filename ∧
      ((strContains (get_failure_alert_text sampleFailureCtx none) "Warning ⚠️" ↔
          sampleFailureCtx.is_warning = true) ∧
       (strContains (get_failure_alert_text sampleFailureCtx none) "Failure Alert 🛑" ↔
          sampleFailureCtx.is_warning = false) ∧
       (strContains (get_failure_alert_text sampleFailureCtx none) "Printer is paused." ↔
          sampleFailureCtx.print_paused = true) ∧
       (strContains (get_failure_alert_text sampleFailureCtx none) "Printer is NOT paused." ↔
          sampleFailureCtx.print_paused = false ∧
            sampleFailureCtx.printer.pause_on_failure = true ∧
            sampleFailureCtx.is_warning = true)) :=
  ⟨by decide, by decide,
    failure_alert_text_markers.1 sampleFailureCtx (by decide) (by decide)⟩

end Obico
